import Mathlib

/-!
Verification of the PMS5003 dust-sensor driver (PMS5003.cpp / PMS5003.h).

The driver is embedded shallowly:

* External collaborators are an oracle environment `Env`: `avail i` is the
  number of bytes the serial port is willing to deliver on the i-th call to
  `readBytes`, and `clockAt j` is the value returned by the j-th call to
  `millis()`.  The pending byte stream is threaded explicitly as a `List Nat`;
  each delivered byte is stored reduced mod 256, matching the `byte` buffer
  of the C code.
* The unbounded `do/while` loops of `getDataInternal` become fuel-indexed
  recursive functions returning `Option`; `none` means the fuel ran out and
  corresponds to no real execution (every theorem quantifies over fuel or is
  instantiated with enough of it).
* Machine integers: `int64_t` times are `Int`; the `uint16_t` checksum
  accumulator reduces mod 65536 at each step; the C truncating division in
  the preheat return value is `Int.div`.
-/

namespace PMS

/-- Oracle for the two external collaborators of the driver: the serial
transport (how many bytes the i-th `readBytes` call can deliver) and the
millisecond clock (the value of the j-th `millis()` call). -/
structure Env where
  avail : Nat → Nat
  clockAt : Nat → Int

/-- The 12 public measurement fields of the driver (header lines 39-50). -/
structure Measurement where
  pm1p0std : Nat
  pm2p5std : Nat
  pm10std : Nat
  pm1p0atm : Nat
  pm2p5atm : Nat
  pm10atm : Nat
  nc0p3um : Nat
  nc0p5um : Nat
  nc1p0um : Nat
  nc2p5um : Nat
  nc5p0um : Nat
  nc10um : Nat
deriving Repr, DecidableEq

/-- The all-zero measurement record. -/
def meas0 : Measurement := ⟨0, 0, 0, 0, 0, 0, 0, 0, 0, 0, 0, 0⟩

/-- Driver state: the private fields of class PMS5003 that the claims touch.
`_uart` models whether the Stream pointer is non-null, `pinLevel` the level
last written to the sleep pin (true = HIGH). -/
structure PMS5003 where
  _isReady : Bool
  _isSleeping : Bool
  _uart : Bool
  _wakeUpTime : Int
  _sleepPin : Int
  pinLevel : Bool
  meas : Measurement
deriving Repr, DecidableEq

/-- `PREHEAT_TIME` constant (header line 53). -/
def PREHEAT_TIME : Int := 30000

/-- `READ_TIMEOUT` constant (PMS5003.cpp line 142). -/
def READ_TIMEOUT : Int := 800

/-- `TRIES_NUM` constant (PMS5003.cpp line 118). -/
def TRIES_NUM : Nat := 3

/-- `uint16_t(hi) << 8 | uint16_t(lo)` for byte values `lo < 256`:
the big-endian 16-bit word with bytes `hi`, `lo`. -/
def be16 (hi lo : Nat) : Nat := 256 * hi + lo

/-- The `uint16_t crcSum` accumulation loop of PMS5003.cpp line 172-173:
sum of the first 30 buffer bytes in a 16-bit accumulator. -/
def crcSumOf (buff : List Nat) : Nat :=
  (buff.take 30).foldl (fun s b => (s + b) % 65536) 0

/-- The declared frame length word, `buff[2] << 8 | buff[3]` (line 174). -/
def frameLengthOf (buff : List Nat) : Nat := be16 (buff.getD 2 0) (buff.getD 3 0)

/-- The trailing checksum word, `buff[30] << 8 | buff[31]` (line 175). -/
def crcOf (buff : List Nat) : Nat := be16 (buff.getD 30 0) (buff.getD 31 0)

/-- The integrity condition of line 176: computed checksum matches the
trailing checksum word and the declared length equals 28. -/
def frameChecks (buff : List Nat) : Prop :=
  crcSumOf buff = crcOf buff ∧ frameLengthOf buff = 28

instance (buff : List Nat) : Decidable (frameChecks buff) := by
  unfold frameChecks; infer_instance

/-- The field-assignment block of PMS5003.cpp lines 177-188: each of the 12
fields is the big-endian word at its fixed offset in the frame buffer. -/
def decodeFrame (buff : List Nat) : Measurement where
  pm1p0std := be16 (buff.getD 4 0) (buff.getD 5 0)
  pm2p5std := be16 (buff.getD 6 0) (buff.getD 7 0)
  pm10std := be16 (buff.getD 8 0) (buff.getD 9 0)
  pm1p0atm := be16 (buff.getD 10 0) (buff.getD 11 0)
  pm2p5atm := be16 (buff.getD 12 0) (buff.getD 13 0)
  pm10atm := be16 (buff.getD 14 0) (buff.getD 15 0)
  nc0p3um := be16 (buff.getD 16 0) (buff.getD 17 0)
  nc0p5um := be16 (buff.getD 18 0) (buff.getD 19 0)
  nc1p0um := be16 (buff.getD 20 0) (buff.getD 21 0)
  nc2p5um := be16 (buff.getD 22 0) (buff.getD 23 0)
  nc5p0um := be16 (buff.getD 24 0) (buff.getD 25 0)
  nc10um := be16 (buff.getD 26 0) (buff.getD 27 0)

/-- One step of the resync scanner of PMS5003.cpp lines 148-159, acting on
the state `(buff[0], buff[1], n)` when one byte `b` has been delivered:
writing `b` into `buff[n]` followed by the candidate-update logic of
lines 151-159.  The byte is stored mod 256 (the buffer is `byte[]`). -/
def scanStep : Nat × Nat × Nat → Nat → Nat × Nat × Nat
  | (b0, b1, n), b =>
    let bb := b % 256
    if n = 0 then (if bb = 0x42 then (bb, 0, 1) else (bb, b1, 0))
    else (if bb = 0x4D then (b0, bb, n) else (b0, bb, 0))

/-- The resync loop of PMS5003.cpp lines 146-163.  Arguments after the fuel:
remaining input stream, `buff[0]`, `buff[1]`, `n`, read-attempt counter,
clock-call counter.  Returns `some (locked, buff0, buff1, stream, r, c)`:
`locked = false` is the `return 1` (timed out) exit, `locked = true` is the
loop falling through with the marker found. -/
def resync (env : Env) (startTime : Int) :
    Nat → List Nat → Nat → Nat → Nat → Nat → Nat →
    Option (Bool × Nat × Nat × List Nat × Nat × Nat)
  | 0, _, _, _, _, _, _ => none
  | fuel+1, stream, b0, b1, n, r, c =>
    let k := min 1 (env.avail r)
    let stream1 := stream.drop k
    let s1 := match stream.take k with
      | [] => (b0, b1, n)
      | b :: _ => scanStep (b0, b1, n) b
    if env.clockAt c - startTime ≥ READ_TIMEOUT then
      some (false, s1.1, s1.2.1, stream1, r + 1, c + 1)
    else if s1.1 = 0x42 ∧ s1.2.1 = 0x4D then
      some (true, s1.1, s1.2.1, stream1, r + 1, c + 1)
    else
      resync env startTime fuel stream1 s1.1 s1.2.1 s1.2.2 (r + 1) (c + 1)

/-- The buffer-filling loop of PMS5003.cpp lines 164-171.  `acc` is the
frame buffer assembled so far (starting from the two marker bytes); each
iteration requests `32 - acc.length` bytes.  `some (full, acc, stream, r, c)`
with `full = false` is the `return 1` (timed out) exit, `full = true` the
loop falling through with 32 bytes assembled. -/
def fillLoop (env : Env) (startTime : Int) :
    Nat → List Nat → List Nat → Nat → Nat →
    Option (Bool × List Nat × List Nat × Nat × Nat)
  | 0, _, _, _, _ => none
  | fuel+1, acc, stream, r, c =>
    let k := min (32 - acc.length) (env.avail r)
    let delivered := (stream.take k).map (fun b => b % 256)
    let acc1 := acc ++ delivered
    let stream1 := stream.drop k
    if env.clockAt c - startTime ≥ READ_TIMEOUT then
      some (false, acc1, stream1, r + 1, c + 1)
    else if 32 ≤ acc1.length then
      some (true, acc1, stream1, r + 1, c + 1)
    else
      fillLoop env startTime fuel acc1 stream1 (r + 1) (c + 1)

/-- Result of one `getDataInternal` call: the returned code (0 OK, 1 timed
out, 2 bad data), the measurement fields after the call, the frame buffer
(for the resync-phase timeout exit just the two candidate bytes), the
remaining input stream and the counters. -/
structure InternalOut where
  code : Nat
  meas : Measurement
  buff : List Nat
  stream : List Nat
  r : Nat
  c : Nat
deriving Repr, DecidableEq

/-- `PMS5003::getDataInternal` (PMS5003.cpp lines 140-190): resync on the
two marker bytes, fill the 32-byte buffer, validate checksum and declared
length, and on success assign the 12 fields. -/
def getDataInternal (env : Env) (fuel : Nat) (startTime : Int)
    (meas : Measurement) (stream : List Nat) (r c : Nat) : Option InternalOut :=
  match resync env startTime fuel stream 0 0 0 r c with
  | none => none
  | some (false, b0, b1, stream1, r1, c1) => some ⟨1, meas, [b0, b1], stream1, r1, c1⟩
  | some (true, b0, b1, stream1, r1, c1) =>
    match fillLoop env startTime fuel [b0, b1] stream1 r1 c1 with
    | none => none
    | some (false, buff, stream2, r2, c2) => some ⟨1, meas, buff, stream2, r2, c2⟩
    | some (true, buff, stream2, r2, c2) =>
      if crcSumOf buff ≠ crcOf buff ∨ frameLengthOf buff ≠ 28 then
        some ⟨2, meas, buff, stream2, r2, c2⟩
      else
        some ⟨0, decodeFrame buff, buff, stream2, r2, c2⟩

/-- Result of the retry loop inside `getData`: final return value, fields,
remaining stream, counters, number of `getDataInternal` attempts performed,
and the frame buffer of the last attempt. -/
structure LoopOut where
  res : Int
  meas : Measurement
  stream : List Nat
  r : Nat
  c : Nat
  attempts : Nat
  buff : List Nat
deriving Repr, DecidableEq

/-- The `for (i = 0; i < TRIES_NUM; i++)` retry loop of `PMS5003::getData`
(PMS5003.cpp lines 123-136): code 0 returns 1, code 1 returns 0, code 2
restarts the timeout window at the current time and retries; falling out of
the loop returns 0. -/
def getDataLoop (env : Env) (fuel : Nat) :
    Nat → Int → Measurement → List Nat → Nat → Nat → Nat → Option LoopOut
  | 0, _, meas, stream, r, c, att => some ⟨0, meas, stream, r, c, att, []⟩
  | tries+1, startTime, meas, stream, r, c, att =>
    match getDataInternal env fuel startTime meas stream r c with
    | none => none
    | some o =>
      if o.code = 0 then some ⟨1, o.meas, o.stream, o.r, o.c, att + 1, o.buff⟩
      else if o.code = 1 then some ⟨0, o.meas, o.stream, o.r, o.c, att + 1, o.buff⟩
      else getDataLoop env fuel tries (env.clockAt o.c) o.meas o.stream o.r (o.c + 1) (att + 1)

/-- Result of a `getData` call: return value (negative = seconds left to
preheat, 0 = error, 1 = success), driver state after the call, remaining
stream, counters, attempts performed, last frame buffer. -/
structure GOut where
  res : Int
  driver : PMS5003
  stream : List Nat
  r : Nat
  c : Nat
  attempts : Nat
  buff : List Nat
deriving Repr, DecidableEq

/-- Repackaging of a retry-loop result into a `getData` result. -/
def wrapOut (d : PMS5003) (o : LoopOut) : GOut :=
  ⟨o.res, { d with meas := o.meas }, o.stream, o.r, o.c, o.attempts, o.buff⟩

/-- `PMS5003::getData` (PMS5003.cpp lines 116-137): the unconfigured/sleeping
guard, the preheat guard with its truncating division, then the retry loop. -/
def getData (env : Env) (fuel : Nat) (d : PMS5003) (stream : List Nat)
    (r c : Nat) : Option GOut :=
  if !d._uart || d._isSleeping then some ⟨0, d, stream, r, c, 0, []⟩
  else
    let startTime := env.clockAt c
    let timeFromWakeUp := startTime - d._wakeUpTime
    if timeFromWakeUp ≤ PREHEAT_TIME then
      some ⟨Int.tdiv (timeFromWakeUp - PREHEAT_TIME) 1000, d, stream, r, c + 1, 0, []⟩
    else
      (getDataLoop env fuel TRIES_NUM startTime d.meas stream r (c + 1) 0).map (wrapOut d)

/-- `PMS5003::isReady` (PMS5003.cpp lines 69-80), with the `millis()` value
passed in as `now`.  Returns the boolean result and the updated driver. -/
def isReady (d : PMS5003) (now : Int) : Bool × PMS5003 :=
  if d._isSleeping then (false, d)
  else if d._isReady then (true, d)
  else if d._uart ∧ now - d._wakeUpTime > PREHEAT_TIME then
    (true, { d with _isReady := true })
  else (false, d)

/-- `PMS5003::Sleep` (PMS5003.cpp lines 89-99): with a sleep pin, drive the
pin low, clear readiness, set the sleeping flag, call `getData()` twice
ignoring the results, and return the sleeping flag. -/
def Sleep (env : Env) (fuel : Nat) (d : PMS5003) (stream : List Nat)
    (r c : Nat) : Option (Bool × PMS5003 × List Nat × Nat × Nat) :=
  if d._sleepPin ≥ 0 then
    let d1 := { d with pinLevel := false, _isReady := false, _isSleeping := true }
    match getData env fuel d1 stream r c with
    | none => none
    | some o1 =>
      match getData env fuel o1.driver o1.stream o1.r o1.c with
      | none => none
      | some o2 => some (o2.driver._isSleeping, o2.driver, o2.stream, o2.r, o2.c)
  else some (d._isSleeping, d, stream, r, c)

/-- The resync scanner run over a list of bytes from a given state,
returning `none` if the marker pair completes somewhere inside the list
(the resync loop would exit there), else the final state.  This is the
automaton of `scanStep` made runnable on plain byte lists, used to state
which garbage prefixes the resync loop scans through without locking. -/
def scanGarbage : Nat → Nat → Nat → List Nat → Option (Nat × Nat × Nat)
  | b0, b1, n, [] => some (b0, b1, n)
  | b0, b1, n, b :: bs =>
    let s := scanStep (b0, b1, n) b
    if s.1 = 0x42 ∧ s.2.1 = 0x4D then none else scanGarbage s.1 s.2.1 s.2.2 bs

/-- An environment that always delivers one byte per read attempt and whose
clock never advances (so the 800 ms window never expires). -/
def promptEnv : Env := ⟨fun _ => 1, fun _ => 0⟩

/-- A concrete valid frame: marker, declared length 28, all 12 fields and
the two reserved bytes zero, checksum 0x00AB = 0x42 + 0x4D + 0x1C. -/
def cexFrame : List Nat := [0x42, 0x4D, 0, 28] ++ List.replicate 26 0 ++ [0, 171]

/-- The 30 bytes of `cexFrame` after the marker. -/
def cexBody : List Nat := [0, 28] ++ List.replicate 26 0 ++ [0, 171]

/-- A second valid frame, agreeing with `cexFrame` on all field bytes but
differing in the first reserved byte (frame offset 28) and consequently in
the checksum word (frame offsets 30-31). -/
def cexFrame2 : List Nat := [0x42, 0x4D, 0, 28] ++ List.replicate 24 0 ++ [1, 0, 0, 172]

/-- A corrupt frame: `cexFrame` with one field byte changed and the old
checksum kept, so the checksum test fails. -/
def badFrame : List Nat := [0x42, 0x4D, 0, 28] ++ (5 :: List.replicate 25 0) ++ [0, 171]

/-- Environment for the C1 counterexample: one byte per read attempt, clock
at 0 for the first 40 calls (well inside the 800 ms budget while the 33
stream bytes arrive), then past the budget. -/
def env1 : Env := ⟨fun _ => 1, fun i => if i < 40 then 0 else 900⟩

/-- Environment for the C3 counterexample: the two marker bytes arrive on
single-byte reads at clock 0, the remaining 30 bytes arrive in one chunk on
the third read, after which the clock reads exactly 800. -/
def env3 : Env := ⟨fun r => if r < 2 then 1 else 30, fun c => if c < 2 then 0 else 800⟩

/-- Environment whose clock always reads 29 500 ms (driver woken at 0: 500 ms
of preheat left). -/
def env4 : Env := ⟨fun _ => 1, fun _ => 29500⟩

/-- Environment for warm-driver runs: first `millis()` call reads 31 000,
later ones 31 001, one byte per read attempt. -/
def envWarm : Env := ⟨fun _ => 1, fun c => if c = 0 then 31000 else 31001⟩

/-- Awake, warmed-up driver with a transport and no sleep pin, woken at 0. -/
def dWarm : PMS5003 := ⟨false, false, true, 0, -1, true, meas0⟩

/-- Awake driver with transport and sleep pin 0, woken at 0. -/
def dPin : PMS5003 := ⟨true, false, true, 0, 0, true, meas0⟩

/-- Environment delivering one byte per read with the clock at 31 000 for the
first 34 calls and 32 000 afterwards: a first frame is read within budget,
a second attempt times out. -/
def envC6 : Env := ⟨fun _ => 1, fun c => if c < 34 then 31000 else 32000⟩

/-- The result of `getData envC6 60 dWarm badFrame 0 0`: first attempt reads
the corrupt frame (code 2), the retry times out, overall result 0 with the
fields untouched. -/
def outC6 : GOut := ⟨0, dWarm, [], 33, 35, 2, [0, 0]⟩

theorem foldl_addmod (m : Nat) (l : List Nat) :
    ∀ s, l.foldl (fun a b => (a + b) % m) (s % m) = (s + l.sum) % m := by
  induction l with
  | nil => intro s; simp
  | cons b bs ih =>
    intro s
    simp only [List.foldl_cons, List.sum_cons]
    rw [Nat.mod_add_mod]
    rw [ih (s + b)]
    ring_nf

/-- The 16-bit checksum accumulator computes the sum of the first 30 bytes
modulo 2^16. -/
theorem crcSumOf_eq (buff : List Nat) :
    crcSumOf buff = (buff.take 30).sum % 65536 := by
  have h := foldl_addmod 65536 (buff.take 30) 0
  simpa [crcSumOf] using h

theorem resync_some_lt {env : Env} {st : Int} {fuel : Nat} :
    ∀ {stream b0 b1 n r c lk b0' b1' s' r' c'},
      resync env st fuel stream b0 b1 n r c = some (lk, b0', b1', s', r', c') →
      r < r' ∧ c < c' := by
  induction fuel with
  | zero =>
    intro stream b0 b1 n r c lk b0' b1' s' r' c' h
    simp [resync] at h
  | succ f ih =>
    intro stream b0 b1 n r c lk b0' b1' s' r' c' h
    rw [resync] at h
    rcases htk : List.take (min 1 (env.avail r)) stream with - | ⟨b, tl⟩ <;>
      (simp only [htk] at h
       split at h
       · simp only [Option.some.injEq, Prod.mk.injEq] at h
         omega
       · split at h
         · simp only [Option.some.injEq, Prod.mk.injEq] at h
           omega
         · have := ih h
           omega)

theorem resync_locked {env : Env} {st : Int} {fuel : Nat} :
    ∀ {stream b0 b1 n r c b0' b1' s' r' c'},
      resync env st fuel stream b0 b1 n r c = some (true, b0', b1', s', r', c') →
      b0' = 0x42 ∧ b1' = 0x4D := by
  induction fuel with
  | zero =>
    intro stream b0 b1 n r c b0' b1' s' r' c' h
    simp [resync] at h
  | succ f ih =>
    intro stream b0 b1 n r c b0' b1' s' r' c' h
    rw [resync] at h
    rcases htk : List.take (min 1 (env.avail r)) stream with - | ⟨b, tl⟩ <;>
      (simp only [htk] at h
       split at h
       · simp only [Option.some.injEq, Prod.mk.injEq] at h
         exact absurd h.1 (by simp)
       · split at h
         · rename_i hclk hmk
           simp only [Option.some.injEq, Prod.mk.injEq] at h
           obtain ⟨-, h0, h1, -⟩ := h
           exact ⟨h0 ▸ hmk.1, h1 ▸ hmk.2⟩
         · exact ih h)

theorem resync_timeout_clock {env : Env} {st : Int} {fuel : Nat} :
    ∀ {stream b0 b1 n r c b0' b1' s' r' c'},
      resync env st fuel stream b0 b1 n r c = some (false, b0', b1', s', r', c') →
      env.clockAt (c' - 1) - st ≥ READ_TIMEOUT := by
  induction fuel with
  | zero =>
    intro stream b0 b1 n r c b0' b1' s' r' c' h
    simp [resync] at h
  | succ f ih =>
    intro stream b0 b1 n r c b0' b1' s' r' c' h
    rw [resync] at h
    rcases htk : List.take (min 1 (env.avail r)) stream with - | ⟨b, tl⟩ <;>
      (simp only [htk] at h
       split at h
       · rename_i hclk
         simp only [Option.some.injEq, Prod.mk.injEq] at h
         obtain ⟨-, -, -, -, -, hc⟩ := h
         subst hc
         simpa using hclk
       · split at h
         · simp only [Option.some.injEq, Prod.mk.injEq] at h
           exact absurd h.1 (by simp)
         · exact ih h)

theorem fillLoop_some_lt {env : Env} {st : Int} {fuel : Nat} :
    ∀ {acc stream r c full acc' s' r' c'},
      fillLoop env st fuel acc stream r c = some (full, acc', s', r', c') →
      r < r' ∧ c < c' := by
  induction fuel with
  | zero =>
    intro acc stream r c full acc' s' r' c' h
    simp [fillLoop] at h
  | succ f ih =>
    intro acc stream r c full acc' s' r' c' h
    rw [fillLoop] at h
    split at h
    · simp only [Option.some.injEq, Prod.mk.injEq] at h
      omega
    · split at h
      · simp only [Option.some.injEq, Prod.mk.injEq] at h
        omega
      · have := ih h
        omega

theorem fillLoop_full_len {env : Env} {st : Int} {fuel : Nat} :
    ∀ {acc stream r c acc' s' r' c'},
      acc.length ≤ 32 →
      fillLoop env st fuel acc stream r c = some (true, acc', s', r', c') →
      acc'.length = 32 := by
  induction fuel with
  | zero =>
    intro acc stream r c acc' s' r' c' _ h
    simp [fillLoop] at h
  | succ f ih =>
    intro acc stream r c acc' s' r' c' hlen h
    rw [fillLoop] at h
    have hlen1 : (acc ++ (stream.take (min (32 - acc.length) (env.avail r))).map
        (fun b => b % 256)).length ≤ 32 := by
      simp only [List.length_append, List.length_map, List.length_take]
      omega
    split at h
    · simp only [Option.some.injEq, Prod.mk.injEq] at h
      exact absurd h.1 (by simp)
    · split at h
      · rename_i hfull
        simp only [Option.some.injEq, Prod.mk.injEq] at h
        obtain ⟨-, ha, -⟩ := h
        subst ha
        omega
      · exact ih hlen1 h

theorem fillLoop_timeout_clock {env : Env} {st : Int} {fuel : Nat} :
    ∀ {acc stream r c acc' s' r' c'},
      fillLoop env st fuel acc stream r c = some (false, acc', s', r', c') →
      env.clockAt (c' - 1) - st ≥ READ_TIMEOUT := by
  induction fuel with
  | zero =>
    intro acc stream r c acc' s' r' c' h
    simp [fillLoop] at h
  | succ f ih =>
    intro acc stream r c acc' s' r' c' h
    rw [fillLoop] at h
    split at h
    · rename_i hclk
      simp only [Option.some.injEq, Prod.mk.injEq] at h
      obtain ⟨-, -, -, -, hc⟩ := h
      subst hc
      simpa using hclk
    · split at h
      · simp only [Option.some.injEq, Prod.mk.injEq] at h
        exact absurd h.1 (by simp)
      · exact ih h

/-- Case analysis of one `getDataInternal` call: code 0 comes with a full
validated buffer and the decoded fields, code 1 leaves the fields alone and
has an expired clock at its final check, code 2 comes with a full buffer
failing the checks and leaves the fields alone. -/
theorem internal_spec {env : Env} {fuel : Nat} {st : Int} {meas : Measurement}
    {stream : List Nat} {r c : Nat} {out : InternalOut}
    (h : getDataInternal env fuel st meas stream r c = some out) :
      (out.code = 0 ∧ out.buff.length = 32 ∧ frameChecks out.buff ∧
        out.meas = decodeFrame out.buff)
    ∨ (out.code = 1 ∧ out.meas = meas ∧ env.clockAt (out.c - 1) - st ≥ READ_TIMEOUT)
    ∨ (out.code = 2 ∧ out.buff.length = 32 ∧ ¬frameChecks out.buff ∧ out.meas = meas) := by
  unfold getDataInternal at h
  split at h
  · exact absurd h (by simp)
  · rename_i heq
    simp only [Option.some.injEq] at h
    subst h
    refine Or.inr (Or.inl ⟨rfl, rfl, ?_⟩)
    exact resync_timeout_clock heq
  · rename_i heq
    split at h
    · exact absurd h (by simp)
    · rename_i hfill
      simp only [Option.some.injEq] at h
      subst h
      refine Or.inr (Or.inl ⟨rfl, rfl, ?_⟩)
      exact fillLoop_timeout_clock hfill
    · rename_i hfill
      have hlen : _ := fillLoop_full_len (by simp) hfill
      split at h
      · rename_i hbad
        simp only [Option.some.injEq] at h
        subst h
        refine Or.inr (Or.inr ⟨rfl, hlen, ?_, rfl⟩)
        intro hc
        rcases hbad with hb | hb
        · exact hb hc.1
        · exact hb hc.2
      · rename_i hgood
        push_neg at hgood
        simp only [Option.some.injEq] at h
        subst h
        exact Or.inl ⟨rfl, hlen, ⟨hgood.1, hgood.2⟩, rfl⟩

/-- Every successful `getDataInternal` call performs at least one read
attempt and at least one clock sample. -/
theorem internal_lt {env : Env} {fuel : Nat} {st : Int} {meas : Measurement}
    {stream : List Nat} {r c : Nat} {out : InternalOut}
    (h : getDataInternal env fuel st meas stream r c = some out) :
    r < out.r ∧ c < out.c := by
  unfold getDataInternal at h
  split at h
  · exact absurd h (by simp)
  · rename_i heq
    simp only [Option.some.injEq] at h
    subst h
    exact resync_some_lt heq
  · rename_i heq
    have h1 := resync_some_lt heq
    split at h
    · exact absurd h (by simp)
    · rename_i hfill
      have h2 := fillLoop_some_lt hfill
      simp only [Option.some.injEq] at h
      subst h
      exact ⟨by simp; omega, by simp; omega⟩
    · rename_i hfill
      have h2 := fillLoop_some_lt hfill
      split at h
      all_goals
        simp only [Option.some.injEq] at h
        subst h
        exact ⟨by simp; omega, by simp; omega⟩

theorem tdiv1000_nonpos {a : Int} (ha : a ≤ 0) : Int.tdiv a 1000 ≤ 0 := by
  have h1 : (0:Int) ≤ Int.tdiv (-a) 1000 :=
    Int.tdiv_nonneg (by omega) (by norm_num)
  have h2 := Int.neg_tdiv a 1000
  omega

theorem tdiv1000_neg {a : Int} (ha : a ≤ -1000) : Int.tdiv a 1000 < 0 := by
  have h2 := Int.neg_tdiv a 1000
  have h3 : Int.tdiv (-a) 1000 = (-a) / 1000 :=
    Int.tdiv_eq_ediv (by omega) (by norm_num)
  have h4 : (1:Int) ≤ (-a) / 1000 := by omega
  omega

theorem loop_step_ok {env : Env} {fuel t : Nat} {st : Int} {meas : Measurement}
    {stream : List Nat} {r c att : Nat} {o : InternalOut}
    (h : getDataInternal env fuel st meas stream r c = some o) (h0 : o.code = 0) :
    getDataLoop env fuel (t + 1) st meas stream r c att =
      some ⟨1, o.meas, o.stream, o.r, o.c, att + 1, o.buff⟩ := by
  rw [getDataLoop, h]
  simp [h0]

theorem loop_step_timeout {env : Env} {fuel t : Nat} {st : Int} {meas : Measurement}
    {stream : List Nat} {r c att : Nat} {o : InternalOut}
    (h : getDataInternal env fuel st meas stream r c = some o) (h1 : o.code = 1) :
    getDataLoop env fuel (t + 1) st meas stream r c att =
      some ⟨0, o.meas, o.stream, o.r, o.c, att + 1, o.buff⟩ := by
  rw [getDataLoop, h]
  simp [h1]

theorem loop_step_corrupt {env : Env} {fuel t : Nat} {st : Int} {meas : Measurement}
    {stream : List Nat} {r c att : Nat} {o : InternalOut}
    (h : getDataInternal env fuel st meas stream r c = some o) (h2 : o.code = 2) :
    getDataLoop env fuel (t + 1) st meas stream r c att =
      getDataLoop env fuel t (env.clockAt o.c) o.meas o.stream o.r (o.c + 1) (att + 1) := by
  rw [getDataLoop, h]
  simp [h2]

/-- The retry loop returns 0 or 1; on anything but 1 the fields are those it
started with; on 1 the last attempt's buffer passed the checks and the
fields are its decode. -/
theorem loop_spec {env : Env} {fuel : Nat} :
    ∀ {tries : Nat} {st : Int} {meas : Measurement} {stream : List Nat}
      {r c att : Nat} {o : LoopOut},
      getDataLoop env fuel tries st meas stream r c att = some o →
      (o.res = 0 ∨ o.res = 1)
      ∧ (o.res ≠ 1 → o.meas = meas)
      ∧ (o.res = 1 → frameChecks o.buff ∧ o.meas = decodeFrame o.buff) := by
  intro tries
  induction tries with
  | zero =>
    intro st meas stream r c att o h
    rw [getDataLoop] at h
    simp only [Option.some.injEq] at h
    subst h
    exact ⟨Or.inl rfl, fun _ => rfl, fun h1 => by simp at h1⟩
  | succ t ih =>
    intro st meas stream r c att o h
    rw [getDataLoop] at h
    split at h
    · exact absurd h (by simp)
    · rename_i oi heq
      split at h
      · rename_i h0
        simp only [Option.some.injEq] at h
        subst h
        rcases internal_spec heq with ⟨-, -, hck, hdec⟩ | ⟨hc, -⟩ | ⟨hc, -⟩
        · exact ⟨Or.inr rfl, fun hne => absurd rfl hne, fun _ => ⟨hck, hdec⟩⟩
        · omega
        · omega
      · rename_i h0
        split at h
        · rename_i h1
          simp only [Option.some.injEq] at h
          subst h
          rcases internal_spec heq with ⟨hc, -⟩ | ⟨-, hm, -⟩ | ⟨hc, -⟩
          · exact absurd hc h0
          · exact ⟨Or.inl rfl, fun _ => hm, fun hx => by simp at hx⟩
          · omega
        · rename_i h1
          have hrec := ih h
          rcases internal_spec heq with ⟨hc, -⟩ | ⟨hc, -⟩ | ⟨-, -, -, hm⟩
          · exact absurd hc h0
          · exact absurd hc h1
          · exact ⟨hrec.1, fun hne => (hrec.2.1 hne).trans hm, hrec.2.2⟩

/-- The retry loop performs at most `tries` further attempts. -/
theorem loop_attempts {env : Env} {fuel : Nat} :
    ∀ {tries : Nat} {st : Int} {meas : Measurement} {stream : List Nat}
      {r c att : Nat} {o : LoopOut},
      getDataLoop env fuel tries st meas stream r c att = some o →
      o.attempts ≤ att + tries := by
  intro tries
  induction tries with
  | zero =>
    intro st meas stream r c att o h
    rw [getDataLoop] at h
    simp only [Option.some.injEq] at h
    subst h
    exact Nat.le_add_right att 0
  | succ t ih =>
    intro st meas stream r c att o h
    rw [getDataLoop] at h
    split at h
    · exact absurd h (by simp)
    · split at h
      · simp only [Option.some.injEq] at h
        subst h
        exact Nat.add_le_add_left (by omega) att
      · split at h
        · simp only [Option.some.injEq] at h
          subst h
          exact Nat.add_le_add_left (by omega) att
        · have := ih h
          omega

/-- A retry loop that runs at least one attempt advances the read counter. -/
theorem loop_lt {env : Env} {fuel : Nat} :
    ∀ {tries : Nat} {st : Int} {meas : Measurement} {stream : List Nat}
      {r c att : Nat} {o : LoopOut},
      getDataLoop env fuel (tries + 1) st meas stream r c att = some o →
      r < o.r := by
  intro tries
  induction tries with
  | zero =>
    intro st meas stream r c att o h
    rw [getDataLoop] at h
    split at h
    · exact absurd h (by simp)
    · rename_i oi heq
      have hlt := internal_lt heq
      split at h
      · simp only [Option.some.injEq] at h
        subst h
        simpa using hlt.1
      · split at h
        · simp only [Option.some.injEq] at h
          subst h
          simpa using hlt.1
        · rw [getDataLoop] at h
          simp only [Option.some.injEq] at h
          subst h
          simpa using hlt.1
  | succ t ih =>
    intro st meas stream r c att o h
    rw [getDataLoop] at h
    split at h
    · exact absurd h (by simp)
    · rename_i oi heq
      have hlt := internal_lt heq
      split at h
      · simp only [Option.some.injEq] at h
        subst h
        simpa using hlt.1
      · split at h
        · simp only [Option.some.injEq] at h
          subst h
          simpa using hlt.1
        · have := ih h
          omega

/-- With a transport, awake, past preheat, `getData` runs the retry loop on
the window opened at the current `millis()` reading. -/
theorem getData_enter {env : Env} {fuel : Nat} {d : PMS5003} {stream : List Nat}
    {r c : Nat} (hu : d._uart = true) (hs : d._isSleeping = false)
    (hw : env.clockAt c - d._wakeUpTime > PREHEAT_TIME) :
    getData env fuel d stream r c =
      (getDataLoop env fuel TRIES_NUM (env.clockAt c) d.meas stream r (c + 1) 0).map
        (wrapOut d) := by
  rw [getData]
  rw [if_neg (by simp [hu, hs])]
  simp only []
  rw [if_neg (by omega)]

/-- Under `promptEnv`, the resync loop processes a garbage list exactly as
the `scanGarbage` automaton does: if the automaton scans the whole list
without completing the marker, the loop arrives at the rest of the stream
in the automaton's final state, having spent one read and one clock call
per byte. -/
theorem resync_prompt {g : List Nat} :
    ∀ {b0 b1 n b0' b1' n' : Nat} {t : List Nat} {r c f : Nat},
      scanGarbage b0 b1 n g = some (b0', b1', n') →
      resync promptEnv 0 (f + g.length) (g ++ t) b0 b1 n r c =
        resync promptEnv 0 f t b0' b1' n' (r + g.length) (c + g.length) := by
  induction g with
  | nil =>
    intro b0 b1 n b0' b1' n' t r c f h
    rw [scanGarbage] at h
    simp only [Option.some.injEq, Prod.mk.injEq] at h
    obtain ⟨h1, h2, h3⟩ := h
    subst h1
    subst h2
    subst h3
    simp
  | cons b bs ih =>
    intro b0 b1 n b0' b1' n' t r c f h
    rcases hst : scanStep (b0, b1, n) b with ⟨x, yz⟩
    rcases yz with ⟨y, z⟩
    simp only [scanGarbage, hst] at h
    simp only [List.length_cons, ← Nat.add_assoc, List.cons_append]
    rw [resync]
    have htake : (b :: (bs ++ t)).take (min 1 (promptEnv.avail r)) = [b] := rfl
    have hdrop : (b :: (bs ++ t)).drop (min 1 (promptEnv.avail r)) = bs ++ t := rfl
    simp only [htake, hdrop, hst]
    rw [if_neg (by norm_num [promptEnv, READ_TIMEOUT])]
    split at h
    · exact absurd h (by simp)
    · rename_i hlock
      rw [if_neg hlock]
      have hrec := ih (t := t) (r := r + 1) (c := c + 1) (f := f) h
      rw [hrec]
      congr 1 <;> omega

/-- Under `promptEnv`, from scanner state `n = 0` the two marker bytes lock
the resync loop. -/
theorem resync_prompt_lock {b0 b1 : Nat} {rest : List Nat} {r c fuel : Nat} :
    resync promptEnv 0 (fuel + 1 + 1) (0x42 :: 0x4D :: rest) b0 b1 0 r c =
      some (true, 0x42, 0x4D, rest, r + 1 + 1, c + 1 + 1) := by
  rw [resync]
  have htake : (0x42 :: (0x4D :: rest)).take (min 1 (promptEnv.avail r)) = [0x42] := rfl
  have hdrop : (0x42 :: (0x4D :: rest)).drop (min 1 (promptEnv.avail r)) = 0x4D :: rest := rfl
  simp only [htake, hdrop]
  rw [show scanStep (b0, b1, 0) 0x42 = (0x42, 0, 1) from by simp [scanStep]]
  rw [if_neg (by norm_num [promptEnv, READ_TIMEOUT])]
  rw [if_neg (by simp)]
  rw [resync]
  have htake2 : (0x4D :: rest).take (min 1 (promptEnv.avail (r + 1))) = [0x4D] := rfl
  have hdrop2 : (0x4D :: rest).drop (min 1 (promptEnv.avail (r + 1))) = rest := rfl
  simp only [htake2, hdrop2]
  rw [show scanStep (0x42, 0, 1) 0x4D = (0x42, 0x4D, 1) from by simp [scanStep]]
  rw [if_neg (by norm_num [promptEnv, READ_TIMEOUT])]
  rw [if_pos ⟨rfl, rfl⟩]

/-- Under `promptEnv`, the fill loop reads one byte per attempt until the
32-byte buffer is complete. -/
theorem fillLoop_prompt {s : List Nat} :
    ∀ {a t : List Nat} {r c f : Nat},
      a.length + s.length = 32 → s ≠ [] → (∀ b ∈ s, b < 256) →
      fillLoop promptEnv 0 (f + s.length) a (s ++ t) r c =
        some (true, a ++ s, t, r + s.length, c + s.length) := by
  induction s with
  | nil => intro a t r c f _ hne _; exact absurd rfl hne
  | cons b bs ih =>
    intro a t r c f hlen _ hlt
    have hb : b % 256 = b := Nat.mod_eq_of_lt (hlt b (by simp))
    simp only [List.length_cons, ← Nat.add_assoc, List.cons_append]
    rw [fillLoop]
    have hmin : min (32 - a.length) (promptEnv.avail r) = 1 := by
      simp only [promptEnv, List.length_cons] at hlen ⊢
      omega
    rw [hmin]
    simp only [List.take_succ_cons, List.take_zero, List.drop_succ_cons, List.drop_zero,
      List.map_cons, List.map_nil, hb]
    rw [if_neg (by norm_num [promptEnv, READ_TIMEOUT])]
    rcases bs with - | ⟨b2, bs2⟩
    · rw [if_pos (by simp at hlen ⊢; omega)]
      simp
    · rw [if_neg (by simp at hlen ⊢; omega)]
      have hrec := ih (a := a ++ [b]) (t := t) (r := r + 1) (c := c + 1)
        (f := f) (by simp at hlen ⊢; omega) (by simp)
        (fun x hx => hlt x (by simp [hx]))
      rw [hrec]
      simp only [Option.some.injEq, Prod.mk.injEq, List.append_assoc, List.singleton_append,
        true_and, and_true]
      omega

theorem resync_prompt_le {g : List Nat} {b0 b1 n b0' b1' n' : Nat} {t : List Nat}
    {r c f : Nat} (hf : g.length ≤ f)
    (h : scanGarbage b0 b1 n g = some (b0', b1', n')) :
    resync promptEnv 0 f (g ++ t) b0 b1 n r c =
      resync promptEnv 0 (f - g.length) t b0' b1' n' (r + g.length) (c + g.length) := by
  have hx := resync_prompt (f := f - g.length) (t := t) (r := r) (c := c) h
  rwa [show f - g.length + g.length = f from by omega] at hx

theorem fillLoop_prompt_le {s a t : List Nat} {r c f : Nat}
    (hf : s.length ≤ f) (hlen : a.length + s.length = 32) (hne : s ≠ [])
    (hlt : ∀ b ∈ s, b < 256) :
    fillLoop promptEnv 0 f a (s ++ t) r c =
      some (true, a ++ s, t, r + s.length, c + s.length) := by
  have hx := fillLoop_prompt (f := f - s.length) (a := a) (t := t)
    (r := r) (c := c) hlen hne hlt
  rwa [show f - s.length + s.length = f from by omega] at hx

/-- C1 counterexample: the resync phase misses a valid frame that follows a
single garbage byte 0x42.  The stream is `0x42 :: cexFrame`; `env1` delivers
one byte per read attempt with the clock at 0 during all 33 deliveries (well
inside the 800 ms budget) and past the budget from the 41st clock call on.
The claim says the resync phase locks onto the frame's marker and the frame
is read; in fact `getDataInternal` returns code 1 (timed out) with nothing
decoded, because after the garbage byte 0x42 is taken as candidate byte 0,
the frame's own first marker byte 0x42 is consumed as a failed second
marker byte and discarded rather than kept as the new candidate. -/
theorem c1_counterexample :
    frameChecks cexFrame ∧ env1.clockAt 32 = 0 ∧ READ_TIMEOUT = 800 ∧
    getDataInternal env1 45 0 meas0 (0x42 :: cexFrame) 0 0 =
      some ⟨1, meas0, [171, 66], [], 41, 41⟩ :=
  ⟨by decide, by decide, by decide, by decide⟩

/-- C1 (amended): when a candidate first marker byte 0x42 is followed by a
byte that is not 0x4D, the resync loop discards BOTH bytes and restarts the
scan at the NEXT read byte (the failed second byte never becomes the new
candidate, not even when it equals 0x42).  Consequently resync recovers a
valid frame after exactly those garbage prefixes that leave the scanner in
state `n = 0` (no pending candidate) — in particular any prefix not ending
in a fresh 0x42 candidate: for every garbage list `g` that the scanner
automaton processes without completing a marker and ending with `n = 0`,
and every valid frame delivered promptly afterwards, the reader locks onto
the frame's marker, reads the frame and decodes it. -/
theorem c1_resync_amended {g body rest : List Nat} {x y : Nat} {meas : Measurement}
    (hg : scanGarbage 0 0 0 g = some (x, y, 0))
    (hlen : body.length = 30) (hbytes : ∀ b ∈ body, b < 256)
    (hvalid : frameChecks (0x42 :: 0x4D :: body)) :
    getDataInternal promptEnv (g.length + 33) 0 meas (g ++ (0x42 :: 0x4D :: (body ++ rest))) 0 0 =
      some ⟨0, decodeFrame (0x42 :: 0x4D :: body), 0x42 :: 0x4D :: body, rest,
        g.length + 32, g.length + 32⟩ := by
  have hres : resync promptEnv 0 (g.length + 33) (g ++ (0x42 :: 0x4D :: (body ++ rest))) 0 0 0 0 0
      = some (true, 0x42, 0x4D, body ++ rest, g.length + 2, g.length + 2) := by
    rw [resync_prompt_le (f := g.length + 33) (t := 0x42 :: 0x4D :: (body ++ rest))
      (by omega) hg]
    rw [show g.length + 33 - g.length = 31 + 1 + 1 from by omega]
    rw [resync_prompt_lock]
    simp only [Option.some.injEq, Prod.mk.injEq, true_and, and_true]
    omega
  have hfill : fillLoop promptEnv 0 (g.length + 33) [0x42, 0x4D] (body ++ rest)
      (g.length + 2) (g.length + 2)
      = some (true, [0x42, 0x4D] ++ body, rest, g.length + 2 + body.length,
          g.length + 2 + body.length) := by
    exact fillLoop_prompt_le (by omega) (by simp [hlen]) (by intro hb; rw [hb] at hlen; simp at hlen)
      hbytes
  rw [getDataInternal]
  simp only [hres, hfill]
  rw [if_neg (by push_neg; exact ⟨hvalid.1, hvalid.2⟩)]
  simp only [Option.some.injEq, InternalOut.mk.injEq, true_and, and_true]
  refine ⟨rfl, rfl, by omega, by omega⟩

/-- C1 witness for the amended theorem: garbage `[1, 0x42, 2]` (which
exercises the discard-both path: 0x42 becomes a candidate and is discarded
together with the following 2) followed by the valid frame `cexFrame`. -/
theorem c1_witness :
    getDataInternal promptEnv ([1, 0x42, 2].length + 33) 0 meas0
        ([1, 0x42, 2] ++ (0x42 :: 0x4D :: (cexBody ++ []))) 0 0 =
      some ⟨0, decodeFrame (0x42 :: 0x4D :: cexBody), 0x42 :: 0x4D :: cexBody, [],
        [1, 0x42, 2].length + 32, [1, 0x42, 2].length + 32⟩ :=
  c1_resync_amended (x := 0x42) (y := 2) (by decide) (by decide) (by decide) (by decide)

/-- C2: for an awake, warmed-up driver with a configured transport, getData
performs at most 3 frame-read attempts; a code-0 (Success) attempt makes it
return 1 immediately, a code-1 (TimedOut) attempt makes it return 0
immediately with no retry, and a code-2 (Corrupt) attempt restarts the
timeout window at the current `millis()` reading and retries, with 0
returned only after 3 consecutive Corrupt attempts. -/
theorem c2_retry_policy (env : Env) (fuel : Nat) (d : PMS5003) (stream : List Nat)
    (r c : Nat) (hu : d._uart = true) (hs : d._isSleeping = false)
    (hw : env.clockAt c - d._wakeUpTime > PREHEAT_TIME) :
    (∀ out, getData env fuel d stream r c = some out → out.attempts ≤ 3) ∧
    ∀ o1, getDataInternal env fuel (env.clockAt c) d.meas stream r (c + 1) = some o1 →
      ((o1.code = 0 → getData env fuel d stream r c =
          some ⟨1, { d with meas := o1.meas }, o1.stream, o1.r, o1.c, 1, o1.buff⟩)
      ∧ (o1.code = 1 → getData env fuel d stream r c =
          some ⟨0, { d with meas := o1.meas }, o1.stream, o1.r, o1.c, 1, o1.buff⟩)
      ∧ (o1.code = 2 →
        ∀ o2, getDataInternal env fuel (env.clockAt o1.c) o1.meas o1.stream o1.r (o1.c + 1) =
            some o2 →
          ((o2.code = 0 → getData env fuel d stream r c =
              some ⟨1, { d with meas := o2.meas }, o2.stream, o2.r, o2.c, 2, o2.buff⟩)
          ∧ (o2.code = 1 → getData env fuel d stream r c =
              some ⟨0, { d with meas := o2.meas }, o2.stream, o2.r, o2.c, 2, o2.buff⟩)
          ∧ (o2.code = 2 →
            ∀ o3, getDataInternal env fuel (env.clockAt o2.c) o2.meas o2.stream o2.r (o2.c + 1) =
                some o3 →
              ((o3.code = 0 → getData env fuel d stream r c =
                  some ⟨1, { d with meas := o3.meas }, o3.stream, o3.r, o3.c, 3, o3.buff⟩)
              ∧ (o3.code = 1 → getData env fuel d stream r c =
                  some ⟨0, { d with meas := o3.meas }, o3.stream, o3.r, o3.c, 3, o3.buff⟩)
              ∧ (o3.code = 2 → getData env fuel d stream r c =
                  some ⟨0, { d with meas := o3.meas }, o3.stream, o3.r, o3.c + 1, 3, []⟩)))))) := by
  constructor
  · intro out hout
    rw [getData_enter hu hs hw] at hout
    rcases Option.map_eq_some'.mp hout with ⟨lo, hlo, hwrap⟩
    have hatt := loop_attempts hlo
    rw [← hwrap]
    simp only [wrapOut, TRIES_NUM] at hatt ⊢
    omega
  · intro o1 h1
    refine ⟨?_, ?_, ?_⟩
    · intro h0
      rw [getData_enter hu hs hw, show TRIES_NUM = 2 + 1 from rfl, loop_step_ok h1 h0]
      simp [wrapOut]
    · intro hc1
      rw [getData_enter hu hs hw, show TRIES_NUM = 2 + 1 from rfl, loop_step_timeout h1 hc1]
      simp [wrapOut]
    · intro hc1 o2 h2
      refine ⟨?_, ?_, ?_⟩
      · intro h0
        rw [getData_enter hu hs hw, show TRIES_NUM = 2 + 1 from rfl,
          loop_step_corrupt h1 hc1, show (2:Nat) = 1 + 1 from rfl, loop_step_ok h2 h0]
        simp [wrapOut]
      · intro hc2
        rw [getData_enter hu hs hw, show TRIES_NUM = 2 + 1 from rfl,
          loop_step_corrupt h1 hc1, show (2:Nat) = 1 + 1 from rfl, loop_step_timeout h2 hc2]
        simp [wrapOut]
      · intro hc2 o3 h3
        refine ⟨?_, ?_, ?_⟩
        · intro h0
          rw [getData_enter hu hs hw, show TRIES_NUM = 2 + 1 from rfl,
            loop_step_corrupt h1 hc1, show (2:Nat) = 1 + 1 from rfl,
            loop_step_corrupt h2 hc2, show (1:Nat) = 0 + 1 from rfl, loop_step_ok h3 h0]
          simp [wrapOut]
        · intro hc3
          rw [getData_enter hu hs hw, show TRIES_NUM = 2 + 1 from rfl,
            loop_step_corrupt h1 hc1, show (2:Nat) = 1 + 1 from rfl,
            loop_step_corrupt h2 hc2, show (1:Nat) = 0 + 1 from rfl,
            loop_step_timeout h3 hc3]
          simp [wrapOut]
        · intro hc3
          rw [getData_enter hu hs hw, show TRIES_NUM = 2 + 1 from rfl,
            loop_step_corrupt h1 hc1, show (2:Nat) = 1 + 1 from rfl,
            loop_step_corrupt h2 hc2, show (1:Nat) = 0 + 1 from rfl,
            loop_step_corrupt h3 hc3, getDataLoop]
          simp [wrapOut]

/-- C2 witness: a warm driver with a valid frame promptly available — the
first attempt succeeds and getData returns 1 after exactly one attempt. -/
theorem c2_witness :
    getData envWarm 50 dWarm cexFrame 0 0 = some ⟨1, dWarm, [], 32, 33, 1, cexFrame⟩ := by
  have h := (c2_retry_policy envWarm 50 dWarm cexFrame 0 0 rfl rfl (by decide)).2
    ⟨0, meas0, cexFrame, [], 32, 33⟩ (by decide)
  exact h.1 rfl

/-- C3 counterexample: a run of `getDataInternal` that assembles a complete
32-byte buffer — in fact a fully valid frame — and still returns code 1
(TimedOut), because the final 30-byte chunk arrives in the same read attempt
after which the clock first shows the 800 ms budget expired (the timeout
test at line 169 runs before the buffer-complete test of the loop
condition).  This refutes the claim that TimedOut is returned only when
fewer than 32 valid frame bytes were assembled. -/
theorem c3_counterexample :
    getDataInternal env3 10 0 meas0 cexFrame 0 0 = some ⟨1, meas0, cexFrame, [], 3, 3⟩ ∧
    frameChecks cexFrame ∧ cexFrame.length = 32 :=
  ⟨by decide, by decide, by decide⟩

/-- C3 (amended): a single frame-read attempt classifies its outcomes as
follows — code 1 (TimedOut) is returned exactly when some post-read clock
check shows the 800 ms budget (measured from the caller-supplied start
time) expired, which can happen even though that same final read completed
the 32-byte buffer; code 2 (Corrupt) is returned only with a complete
32-byte buffer that failed the integrity checks; code 0 (Success) only with
a complete buffer that passed them.  The two failure outcomes are never
conflated: a Corrupt classification always carries a complete buffer, and a
TimedOut classification always carries an expired clock. -/
theorem c3_classification {env : Env} {fuel : Nat} {st : Int} {meas : Measurement}
    {stream : List Nat} {r c : Nat} {out : InternalOut}
    (h : getDataInternal env fuel st meas stream r c = some out) :
    (out.code = 0 → out.buff.length = 32 ∧ frameChecks out.buff)
    ∧ (out.code = 1 → env.clockAt (out.c - 1) - st ≥ READ_TIMEOUT)
    ∧ (out.code = 2 → out.buff.length = 32 ∧ ¬frameChecks out.buff) := by
  refine ⟨?_, ?_, ?_⟩ <;> intro hc <;>
    rcases internal_spec h with ⟨h0, hb, hck, -⟩ | ⟨h1, -, hclk⟩ | ⟨h2, hb, hck, -⟩ <;>
    first
      | exact ⟨hb, hck⟩
      | exact hclk
      | omega

/-- C3 witness: a prompt valid-frame run takes the code-0 branch of the
classification. -/
theorem c3_witness : cexFrame.length = 32 ∧ frameChecks cexFrame := by
  have h := (c3_classification
    (by decide : getDataInternal promptEnv 40 0 meas0 cexFrame 0 0 =
      some ⟨0, meas0, cexFrame, [], 32, 32⟩)).1 rfl
  exact ⟨h.1, h.2⟩

/-- C4 counterexample: an awake, configured driver woken at time 0, queried
at 29 500 ms — inside the preheat window with 500 ms left.  The claim says
getData returns a negative count of seconds distinct from NoData (0) for
the whole preheat period; the code computes `(29500 - 30000) / 1000` with
C truncating division, which is 0, indistinguishable from NoData (though,
as claimed, no read is attempted: the read counter stays 0). -/
theorem c4_counterexample :
    getData env4 1 dWarm [] 0 0 = some ⟨0, dWarm, [], 0, 1, 0, []⟩ ∧
    env4.clockAt 0 - dWarm._wakeUpTime = 29500 ∧
    (29500 : Int) ≤ PREHEAT_TIME ∧ (0 : Int) < PREHEAT_TIME - 29500 :=
  ⟨by decide, by decide, by decide, by decide⟩

/-- C4 (amended): for an awake driver with a configured transport, whenever
0 ≤ elapsed ≤ 30 000 ms since wake, getData performs no transport read and
returns `(elapsed - 30000) tdiv 1000` — the remaining preheat time in whole
seconds truncated toward zero.  The value is never 1 (DataAvailable) and is
nonpositive; it is strictly negative (hence distinct from NoData) only
while at least a full second of preheat remains (elapsed ≤ 29 000); in the
final second of preheat it is 0, which coincides with NoData. -/
theorem c4_preheat {env : Env} {fuel : Nat} {d : PMS5003} {stream : List Nat} {r c : Nat}
    (hu : d._uart = true) (hs : d._isSleeping = false)
    (h0 : 0 ≤ env.clockAt c - d._wakeUpTime)
    (hp : env.clockAt c - d._wakeUpTime ≤ PREHEAT_TIME) :
    getData env fuel d stream r c =
      some ⟨Int.tdiv (env.clockAt c - d._wakeUpTime - PREHEAT_TIME) 1000, d, stream, r,
        c + 1, 0, []⟩
    ∧ Int.tdiv (env.clockAt c - d._wakeUpTime - PREHEAT_TIME) 1000 ≤ 0
    ∧ Int.tdiv (env.clockAt c - d._wakeUpTime - PREHEAT_TIME) 1000 ≠ 1
    ∧ (env.clockAt c - d._wakeUpTime ≤ PREHEAT_TIME - 1000 →
        Int.tdiv (env.clockAt c - d._wakeUpTime - PREHEAT_TIME) 1000 < 0) := by
  have hle : Int.tdiv (env.clockAt c - d._wakeUpTime - PREHEAT_TIME) 1000 ≤ 0 :=
    tdiv1000_nonpos (by omega)
  refine ⟨?_, hle, by omega, fun hr => tdiv1000_neg (by simp only [PREHEAT_TIME] at hr ⊢; omega)⟩
  rw [getData]
  rw [if_neg (by simp [hu, hs])]
  simp only []
  rw [if_pos hp]

/-- C4 witness: the amended theorem applied to the concrete 29 500 ms state
of the counterexample environment. -/
theorem c4_witness :
    getData env4 1 dWarm [] 0 0 =
      some ⟨Int.tdiv (env4.clockAt 0 - dWarm._wakeUpTime - PREHEAT_TIME) 1000, dWarm, [],
        0, 0 + 1, 0, []⟩ :=
  (c4_preheat rfl rfl (by decide) (by decide)).1

/-- C5: whenever a frame-read attempt does not time out (so a complete
32-byte buffer was assembled), it is classified Success (code 0) if and
only if the sum of the first 30 buffer bytes modulo 2^16 equals the
big-endian 16-bit word at bytes 30-31 and the big-endian word at bytes 2-3
equals 28; otherwise — exactly when either check fails — it is classified
Corrupt (code 2). -/
theorem c5_validation {env : Env} {fuel : Nat} {st : Int} {meas : Measurement}
    {stream : List Nat} {r c : Nat} {out : InternalOut}
    (h : getDataInternal env fuel st meas stream r c = some out) (hnt : out.code ≠ 1) :
    (out.code = 0 ↔
      (out.buff.take 30).sum % 65536 = be16 (out.buff.getD 30 0) (out.buff.getD 31 0)
      ∧ be16 (out.buff.getD 2 0) (out.buff.getD 3 0) = 28)
    ∧ (out.code = 2 ↔
      ¬((out.buff.take 30).sum % 65536 = be16 (out.buff.getD 30 0) (out.buff.getD 31 0)
      ∧ be16 (out.buff.getD 2 0) (out.buff.getD 3 0) = 28)) := by
  have hsum := crcSumOf_eq out.buff
  rcases internal_spec h with ⟨h0, -, hck, -⟩ | ⟨h1, -, -⟩ | ⟨h2, -, hck, -⟩
  · have hck' : (out.buff.take 30).sum % 65536 =
        be16 (out.buff.getD 30 0) (out.buff.getD 31 0)
        ∧ be16 (out.buff.getD 2 0) (out.buff.getD 3 0) = 28 := by
      obtain ⟨ha, hb⟩ := hck
      rw [crcSumOf_eq] at ha
      exact ⟨ha, hb⟩
    exact ⟨iff_of_true h0 hck', iff_of_false (by omega) (not_not_intro hck')⟩
  · exact absurd h1 hnt
  · have hck' : ¬((out.buff.take 30).sum % 65536 =
        be16 (out.buff.getD 30 0) (out.buff.getD 31 0)
        ∧ be16 (out.buff.getD 2 0) (out.buff.getD 3 0) = 28) := by
      intro hcon
      exact hck ⟨by rw [crcSumOf_eq]; exact hcon.1, hcon.2⟩
    exact ⟨iff_of_false (by omega) (fun hcon => hck' hcon), iff_of_true h2 hck'⟩

/-- C5 witness: a prompt run over `badFrame` (one payload byte flipped, old
checksum kept) is classified Corrupt, and the checksum test indeed fails. -/
theorem c5_witness :
    ¬((badFrame.take 30).sum % 65536 = be16 (badFrame.getD 30 0) (badFrame.getD 31 0)
      ∧ be16 (badFrame.getD 2 0) (badFrame.getD 3 0) = 28) :=
  ((c5_validation
    (by decide : getDataInternal promptEnv 40 0 meas0 badFrame 0 0 =
      some ⟨2, meas0, badFrame, [], 32, 32⟩) (by decide)).2).mp rfl

/-- C6: whenever getData does not return 1 (it returns 0 or a negative
preheat value), the 12 Measurement fields after the call are exactly those
before it; they are reassigned — all together, as the decode of the frame
buffer — only when the call returns 1, and then only for a buffer that
passed both the checksum and the declared-length checks. -/
theorem c6_atomic_update {env : Env} {fuel : Nat} {d : PMS5003} {stream : List Nat}
    {r c : Nat} {out : GOut} (h : getData env fuel d stream r c = some out) :
    (out.res ≤ 0 → out.driver.meas = d.meas)
    ∧ (out.res = 1 → frameChecks out.buff ∧ out.driver.meas = decodeFrame out.buff) := by
  rw [getData] at h
  split at h
  · simp only [Option.some.injEq] at h
    subst h
    exact ⟨fun _ => rfl, fun h1 => by simp at h1⟩
  · simp only [] at h
    split at h
    · rename_i hpre
      simp only [Option.some.injEq] at h
      subst h
      have := tdiv1000_nonpos (a := env.clockAt c - d._wakeUpTime - PREHEAT_TIME) (by omega)
      exact ⟨fun _ => rfl, fun h1 => by simp only [] at h1; omega⟩
    · rcases Option.map_eq_some'.mp h with ⟨lo, hlo, hwrap⟩
      have hspec := loop_spec hlo
      rw [← hwrap]
      simp only [wrapOut]
      constructor
      · intro hle
        exact hspec.2.1 (by omega)
      · intro h1
        exact hspec.2.2 h1

/-- C6 witness: the run `getData envC6 60 dWarm badFrame 0 0` — a Corrupt
first attempt followed by a timed-out retry, overall result 0 — leaves the
Measurement fields exactly as they were. -/
theorem c6_witness : outC6.driver.meas = dWarm.meas :=
  (c6_atomic_update
    (by decide : getData envC6 60 dWarm badFrame 0 0 = some outC6)).1 (by decide)

/-- C7 counterexample: two fully validated frames that agree on frame bytes
0-27 but differ in the big-endian words at payload offsets 24 and 26
(frame bytes 28-31: the reserved bytes and the checksum) decode to the same
Measurement.  Hence no field is taken from payload offsets 24 or 26, so the
12 fields do not occupy "the even offsets 0,2,...,26 within the payload" as
the claim states: the even field offsets end at 22. -/
theorem c7_counterexample :
    frameChecks cexFrame ∧ frameChecks cexFrame2 ∧
    decodeFrame cexFrame = decodeFrame cexFrame2 ∧
    cexFrame.getD 28 0 ≠ cexFrame2.getD 28 0 ∧
    be16 (cexFrame.getD 30 0) (cexFrame.getD 31 0) ≠
      be16 (cexFrame2.getD 30 0) (cexFrame2.getD 31 0) :=
  ⟨by decide, by decide, by decide, by decide, by decide⟩

/-- C7 (amended): the decoder sets each of the 12 Measurement fields, in the
fixed order pm1p0std, pm2p5std, pm10std, pm1p0atm, pm2p5atm, pm10atm,
nc0p3um, nc0p5um, nc1p0um, nc2p5um, nc5p0um, nc10um, to the big-endian
unsigned 16-bit word at payload offsets 0, 2, ..., 22 — frame bytes 4+0
through 4+23 — performing no validation at all (the equations hold for
every 32-byte buffer, validated or not; payload offsets 24-27 are never
decoded). -/
theorem c7_decode (buff : List Nat) :
    (decodeFrame buff).pm1p0std = be16 (buff.getD (4 + 0) 0) (buff.getD (4 + 1) 0)
    ∧ (decodeFrame buff).pm2p5std = be16 (buff.getD (4 + 2) 0) (buff.getD (4 + 3) 0)
    ∧ (decodeFrame buff).pm10std = be16 (buff.getD (4 + 4) 0) (buff.getD (4 + 5) 0)
    ∧ (decodeFrame buff).pm1p0atm = be16 (buff.getD (4 + 6) 0) (buff.getD (4 + 7) 0)
    ∧ (decodeFrame buff).pm2p5atm = be16 (buff.getD (4 + 8) 0) (buff.getD (4 + 9) 0)
    ∧ (decodeFrame buff).pm10atm = be16 (buff.getD (4 + 10) 0) (buff.getD (4 + 11) 0)
    ∧ (decodeFrame buff).nc0p3um = be16 (buff.getD (4 + 12) 0) (buff.getD (4 + 13) 0)
    ∧ (decodeFrame buff).nc0p5um = be16 (buff.getD (4 + 14) 0) (buff.getD (4 + 15) 0)
    ∧ (decodeFrame buff).nc1p0um = be16 (buff.getD (4 + 16) 0) (buff.getD (4 + 17) 0)
    ∧ (decodeFrame buff).nc2p5um = be16 (buff.getD (4 + 18) 0) (buff.getD (4 + 19) 0)
    ∧ (decodeFrame buff).nc5p0um = be16 (buff.getD (4 + 20) 0) (buff.getD (4 + 21) 0)
    ∧ (decodeFrame buff).nc10um = be16 (buff.getD (4 + 22) 0) (buff.getD (4 + 23) 0) :=
  ⟨rfl, rfl, rfl, rfl, rfl, rfl, rfl, rfl, rfl, rfl, rfl, rfl⟩

/-- C8: evaluation at the failing input.  A driver with a sleep pin and
three bytes pending on the transport: Sleep() drives the pin low, clears
readiness, sets the sleeping flag and returns true — but the pending stream
and the read-attempt and clock counters are untouched: the two `getData()`
calls inside Sleep return at the just-set sleeping guard, so no discard
read of the transport ever happens. -/
theorem c8_sleep_no_drain :
    Sleep envWarm 5 dPin [9, 9, 9] 0 0 =
      some (true, { dPin with pinLevel := false, _isReady := false, _isSleeping := true },
        [9, 9, 9], 0, 0) := by
  decide

/-- C9 counterexample: an awake driver with a transport, woken at 0 and
queried at exactly 30 000 ms: elapsed time equals the preheat duration, so
by the claim ("true iff elapsed ≥ 30 000 ms") isReady should already be
true; the code uses a strict comparison and returns false. -/
theorem c9_counterexample :
    dWarm._uart = true ∧ dWarm._isSleeping = false ∧
    (30000 : Int) - dWarm._wakeUpTime ≥ PREHEAT_TIME ∧
    (isReady dWarm 30000).1 = false :=
  ⟨rfl, rfl, by decide, by decide⟩

/-- C9 (amended): for an awake driver with a configured transport, isReady
returns true iff readiness was already latched or the elapsed time since
wake is strictly greater than the 30 000 ms preheat duration; in particular
for a driver whose readiness is not yet latched it becomes true exactly
when elapsed time exceeds (not reaches) the preheat duration. -/
theorem c9_isReady {d : PMS5003} {now : Int}
    (hs : d._isSleeping = false) (hu : d._uart = true) :
    (isReady d now).1 = true ↔
      (d._isReady = true ∨ now - d._wakeUpTime > PREHEAT_TIME) := by
  rw [isReady]
  rw [if_neg (by simp [hs])]
  by_cases hr : d._isReady
  · rw [if_pos hr]
    simp [hr]
  · rw [if_neg hr]
    by_cases hc : d._uart ∧ now - d._wakeUpTime > PREHEAT_TIME
    · rw [if_pos hc]
      simp [hc.2]
    · rw [if_neg hc]
      simp only [hu, true_and] at hc
      simp [hr, hc]

/-- C9 witness: at 31 000 ms elapsed the amended criterion yields true. -/
theorem c9_witness : (isReady dWarm 31000).1 = true :=
  (c9_isReady rfl rfl).mpr (Or.inr (by decide))

/-- C10: if a getData call advances the read-attempt counter (i.e. it got
past the unconfigured/sleeping guard and the preheat guard and actually
attempted a transport read), then isReady evaluated at the same state with
the same `millis()` reading returns true; conversely, under exactly the
gate conditions — transport configured, not sleeping, elapsed strictly
greater than 30 000 ms — the call does attempt a read.  Both operations
gate on the identical condition. -/
theorem c10_gate {env : Env} {fuel : Nat} {d : PMS5003} {stream : List Nat} {r c : Nat}
    {out : GOut} (h : getData env fuel d stream r c = some out) :
    (out.r ≠ r → (isReady d (env.clockAt c)).1 = true)
    ∧ (d._uart = true → d._isSleeping = false →
        env.clockAt c - d._wakeUpTime > PREHEAT_TIME → out.r ≠ r) := by
  constructor
  · intro hne
    rw [getData] at h
    split at h
    · simp only [Option.some.injEq] at h
      subst h
      exact absurd rfl hne
    · rename_i hguard
      have hu : d._uart = true := by
        revert hguard
        cases d._uart <;> cases d._isSleeping <;> simp
      have hs : d._isSleeping = false := by
        revert hguard
        cases d._uart <;> cases d._isSleeping <;> simp
      simp only [] at h
      split at h
      · simp only [Option.some.injEq] at h
        subst h
        exact absurd rfl hne
      · rename_i hpre
        rw [isReady]
        rw [if_neg (by simp [hs])]
        by_cases hr : d._isReady
        · rw [if_pos hr]
        · rw [if_neg hr]
          rw [if_pos ⟨hu, by omega⟩]
  · intro hu hs hw
    rw [getData_enter hu hs hw] at h
    rcases Option.map_eq_some'.mp h with ⟨lo, hlo, hwrap⟩
    rw [show TRIES_NUM = 2 + 1 from rfl] at hlo
    have hlt := loop_lt hlo
    rw [← hwrap]
    simp only [wrapOut]
    omega

/-- C10 witness: a warm-driver run that reads a frame (the read counter
advances from 0 to 32) with isReady true at the same clock reading. -/
theorem c10_witness : (isReady dWarm (envWarm.clockAt 0)).1 = true :=
  (c10_gate
    (by decide : getData envWarm 50 dWarm cexFrame 0 0 =
      some ⟨1, dWarm, [], 32, 33, 1, cexFrame⟩)).1 (by decide)

end PMS
